import Mathlib

/-!
Verification of the claudometer usage-polling core (Rust, `src-tauri/src`).

Shallow embedding conventions:
* Rust `f64` percentage values are modelled as rationals (`ℚ`).  The alert
  and scheduling logic only compares, adds and multiplies such values; the
  clamping layer (claim about `parse_utilization_percent`) guarantees that
  values reaching the alert engine are finite and in `[0, 100]`, so the
  rational model is faithful there.  Where the source can observe `NaN`
  (string parsing of utilization values) a dedicated float-value type with
  an explicit `nan` constructor is used.
* Rust `Option<T>` is `Option`, `Result<T, E>` is `Except E`.
* Stateful methods are embedded as explicit state-passing functions; the
  outcomes of external effects (OS keychain reads, HTTP fetches, the CLI
  child process) are supplied as explicit environment values.
-/

namespace Claudometer

/-! ## Alert engine (`src-tauri/src/usage_alerts.rs`) -/

/-- `NEAR_LIMIT_THRESHOLD_PERCENT` from `usage_alerts.rs`. -/
def NEAR_LIMIT_THRESHOLD_PERCENT : ℚ := 90

/-- `UNKNOWN_PERIOD_ID` from `usage_alerts.rs`. -/
def UNKNOWN_PERIOD_ID : String := "unknown"

/-- Rust `str::trim`: drop leading and trailing whitespace.  Defined over
the character list so that it evaluates by kernel reduction. -/
def rustTrim (s : String) : String :=
  ⟨((s.data.dropWhile Char.isWhitespace).reverse.dropWhile
      Char.isWhitespace).reverse⟩

/-- `normalize_period_id` from `usage_alerts.rs`: the raw `resets_at`
timestamp, trimmed, with absent/empty collapsed to the sentinel. -/
def normalize_period_id (resets_at : Option String) : String :=
  let trimmed := rustTrim (resets_at.getD "")
  if trimmed = "" then UNKNOWN_PERIOD_ID else trimmed

/-- `ShouldNotifyNearLimitParams` from `usage_alerts.rs`. -/
structure ShouldNotifyNearLimitParams where
  current_percent : ℚ
  previous_percent : Option ℚ
  current_period_id : String
  last_notified_period_id : Option String

/-- `should_notify_near_limit` from `usage_alerts.rs`. -/
def should_notify_near_limit (params : ShouldNotifyNearLimitParams) : Bool :=
  if params.current_percent < NEAR_LIMIT_THRESHOLD_PERCENT then false
  else if params.last_notified_period_id = some params.current_period_id then false
  else
    match params.previous_percent with
    | none => true
    | some prev => decide (prev < NEAR_LIMIT_THRESHOLD_PERCENT)

/-- `NearLimitAlertDecision` from `usage_alerts.rs`. -/
structure NearLimitAlertDecision where
  notify_session : Bool
  notify_weekly : Bool
  session_period_id : Option String
  weekly_period_id : Option String
deriving DecidableEq

/-- `DecideNearLimitAlertsParams` from `usage_alerts.rs`. -/
structure DecideNearLimitAlertsParams where
  current_session_percent : ℚ
  current_weekly_percent : ℚ
  current_session_resets_at : Option String
  current_weekly_resets_at : Option String
  previous_session_percent : Option ℚ
  previous_weekly_percent : Option ℚ
  last_notified_session_period_id : Option String
  last_notified_weekly_period_id : Option String

/-- Rust `bool::then`: `b.then(|| v)` is `some v` when `b` holds. -/
def boolThen (b : Bool) (v : α) : Option α :=
  if b then some v else none

/-- `decide_near_limit_alerts` from `usage_alerts.rs`. -/
def decide_near_limit_alerts (params : DecideNearLimitAlertsParams) :
    NearLimitAlertDecision :=
  let session_period_id := normalize_period_id params.current_session_resets_at
  let weekly_period_id := normalize_period_id params.current_weekly_resets_at
  let notify_session := should_notify_near_limit
    { current_percent := params.current_session_percent
      previous_percent := params.previous_session_percent
      current_period_id := session_period_id
      last_notified_period_id := params.last_notified_session_period_id }
  let notify_weekly := should_notify_near_limit
    { current_percent := params.current_weekly_percent
      previous_percent := params.previous_weekly_percent
      current_period_id := weekly_period_id
      last_notified_period_id := params.last_notified_weekly_period_id }
  { notify_session := notify_session
    notify_weekly := notify_weekly
    session_period_id := boolThen notify_session session_period_id
    weekly_period_id := boolThen notify_weekly weekly_period_id }

/-- The crossing-edge condition the specification states for one metric. -/
def nearLimitSpecCond (current : ℚ) (previous : Option ℚ)
    (currentPeriodId : String) (lastNotified : Option String) : Prop :=
  90 ≤ current ∧ lastNotified ≠ some currentPeriodId ∧
    (previous = none ∨ ∃ p, previous = some p ∧ p < 90)

lemma should_notify_near_limit_iff (p : ShouldNotifyNearLimitParams) :
    should_notify_near_limit p = true ↔
      nearLimitSpecCond p.current_percent p.previous_percent
        p.current_period_id p.last_notified_period_id := by
  rcases p with ⟨c, prev, pid, last⟩
  simp only [should_notify_near_limit, nearLimitSpecCond,
    NEAR_LIMIT_THRESHOLD_PERCENT]
  split_ifs with h1 h2
  · simp [not_le.mpr h1]
  · simp [h2]
  · cases prev with
    | none => simp [not_lt.mp h1, Ne.symm, h2]
    | some q =>
      simp only [decide_eq_true_eq, Option.some.injEq]
      constructor
      · intro hq
        exact ⟨not_lt.mp h1, fun h => h2 h, Or.inr ⟨q, rfl, hq⟩⟩
      · rintro ⟨-, -, hprev⟩
        rcases hprev with h | ⟨p, hp, hplt⟩
        · exact absurd h (by simp)
        · exact hp ▸ hplt

/-- C1: the near-limit decision, applied independently to the session and
weekly metrics, notifies exactly when the current percent is at least 90,
the normalized current period identifier differs from the last-notified
period identifier, and there is no previous percent or it was below 90;
the period identifier to persist is returned exactly when notifying. -/
theorem near_limit_decision_correct (params : DecideNearLimitAlertsParams) :
    ((decide_near_limit_alerts params).notify_session = true ↔
      nearLimitSpecCond params.current_session_percent
        params.previous_session_percent
        (normalize_period_id params.current_session_resets_at)
        params.last_notified_session_period_id) ∧
    ((decide_near_limit_alerts params).notify_weekly = true ↔
      nearLimitSpecCond params.current_weekly_percent
        params.previous_weekly_percent
        (normalize_period_id params.current_weekly_resets_at)
        params.last_notified_weekly_period_id) ∧
    ((decide_near_limit_alerts params).session_period_id.isSome =
      (decide_near_limit_alerts params).notify_session) ∧
    ((decide_near_limit_alerts params).weekly_period_id.isSome =
      (decide_near_limit_alerts params).notify_weekly) := by
  refine ⟨?_, ?_, ?_, ?_⟩
  · simpa [decide_near_limit_alerts] using
      should_notify_near_limit_iff
        { current_percent := params.current_session_percent
          previous_percent := params.previous_session_percent
          current_period_id := normalize_period_id params.current_session_resets_at
          last_notified_period_id := params.last_notified_session_period_id }
  · simpa [decide_near_limit_alerts] using
      should_notify_near_limit_iff
        { current_percent := params.current_weekly_percent
          previous_percent := params.previous_weekly_percent
          current_period_id := normalize_period_id params.current_weekly_resets_at
          last_notified_period_id := params.last_notified_weekly_period_id }
  · simp only [decide_near_limit_alerts, boolThen]
    split_ifs with h <;> simp [h]
  · simp only [decide_near_limit_alerts, boolThen]
    split_ifs with h <;> simp [h]

/-- `ShouldNotifyResetParams` from `usage_alerts.rs`. -/
structure ShouldNotifyResetParams where
  current_period_id : String
  last_seen_period_id : Option String
  last_notified_reset_period_id : Option String

/-- `should_notify_reset` from `usage_alerts.rs`. -/
def should_notify_reset (params : ShouldNotifyResetParams) : Bool :=
  if params.current_period_id = "" ∨ params.current_period_id = UNKNOWN_PERIOD_ID then
    false
  else
    match params.last_seen_period_id with
    | none => false
    | some last_seen =>
      if params.current_period_id = last_seen then false
      else if params.last_notified_reset_period_id = some params.current_period_id then
        false
      else true

/-- `UsageResetDecision` from `usage_alerts.rs`. -/
structure UsageResetDecision where
  notify_session_reset : Bool
  notify_weekly_reset : Bool
  session_reset_period_id : Option String
  weekly_reset_period_id : Option String
deriving DecidableEq

/-- `DecideUsageResetsParams` from `usage_alerts.rs`. -/
structure DecideUsageResetsParams where
  current_session_resets_at : Option String
  current_weekly_resets_at : Option String
  last_seen_session_period_id : Option String
  last_seen_weekly_period_id : Option String
  last_notified_session_reset_period_id : Option String
  last_notified_weekly_reset_period_id : Option String

/-- `decide_usage_resets` from `usage_alerts.rs`. -/
def decide_usage_resets (params : DecideUsageResetsParams) : UsageResetDecision :=
  let session_period_id := normalize_period_id params.current_session_resets_at
  let weekly_period_id := normalize_period_id params.current_weekly_resets_at
  let notify_session_reset := should_notify_reset
    { current_period_id := session_period_id
      last_seen_period_id := params.last_seen_session_period_id
      last_notified_reset_period_id := params.last_notified_session_reset_period_id }
  let notify_weekly_reset := should_notify_reset
    { current_period_id := weekly_period_id
      last_seen_period_id := params.last_seen_weekly_period_id
      last_notified_reset_period_id := params.last_notified_weekly_reset_period_id }
  { notify_session_reset := notify_session_reset
    notify_weekly_reset := notify_weekly_reset
    session_reset_period_id := boolThen notify_session_reset session_period_id
    weekly_reset_period_id := boolThen notify_weekly_reset weekly_period_id }

/-- The reset condition the specification states for one metric. -/
def resetSpecCond (currentPeriodId : String)
    (lastSeen lastNotifiedReset : Option String) : Prop :=
  currentPeriodId ≠ "" ∧ currentPeriodId ≠ UNKNOWN_PERIOD_ID ∧
    ∃ seen, lastSeen = some seen ∧ seen ≠ currentPeriodId ∧
      lastNotifiedReset ≠ some currentPeriodId

lemma should_notify_reset_iff (p : ShouldNotifyResetParams) :
    should_notify_reset p = true ↔
      resetSpecCond p.current_period_id p.last_seen_period_id
        p.last_notified_reset_period_id := by
  rcases p with ⟨pid, seen, last⟩
  simp only [should_notify_reset, resetSpecCond]
  by_cases h1 : pid = "" ∨ pid = UNKNOWN_PERIOD_ID
  · rw [if_pos h1]
    constructor
    · simp
    · rintro ⟨h2, h3, -⟩
      rcases h1 with h | h
      · exact absurd h h2
      · exact absurd h h3
  · rw [if_neg h1]
    push_neg at h1
    cases seen with
    | none => simp
    | some s =>
      show (if pid = s then false
        else if last = some pid then false else true) = true ↔ _
      by_cases h2 : pid = s
      · simp [if_pos h2, h2]
      · rw [if_neg h2]
        by_cases h3 : last = some pid
        · simp [if_pos h3, h3]
        · rw [if_neg h3]
          simp [h1, h3, Ne.symm h2]

/-- C2: the reset decision, per metric, notifies exactly when the normalized
current period identifier is non-empty and not the sentinel "unknown", a
baseline last-seen period identifier exists and differs from the current
one, and the current one differs from the last period identifier already
notified as a reset; in particular with no baseline it never fires. -/
theorem usage_reset_decision_correct (params : DecideUsageResetsParams) :
    ((decide_usage_resets params).notify_session_reset = true ↔
      resetSpecCond (normalize_period_id params.current_session_resets_at)
        params.last_seen_session_period_id
        params.last_notified_session_reset_period_id) ∧
    ((decide_usage_resets params).notify_weekly_reset = true ↔
      resetSpecCond (normalize_period_id params.current_weekly_resets_at)
        params.last_seen_weekly_period_id
        params.last_notified_weekly_reset_period_id) ∧
    (params.last_seen_session_period_id = none →
      (decide_usage_resets params).notify_session_reset = false) ∧
    (params.last_seen_weekly_period_id = none →
      (decide_usage_resets params).notify_weekly_reset = false) := by
  have hs := should_notify_reset_iff
    { current_period_id := normalize_period_id params.current_session_resets_at
      last_seen_period_id := params.last_seen_session_period_id
      last_notified_reset_period_id := params.last_notified_session_reset_period_id }
  have hw := should_notify_reset_iff
    { current_period_id := normalize_period_id params.current_weekly_resets_at
      last_seen_period_id := params.last_seen_weekly_period_id
      last_notified_reset_period_id := params.last_notified_weekly_reset_period_id }
  refine ⟨by simpa [decide_usage_resets] using hs,
    by simpa [decide_usage_resets] using hw, ?_, ?_⟩
  · intro h
    rw [← Bool.not_eq_true]
    intro htrue
    have hcond := (by simpa [decide_usage_resets] using hs :
      (decide_usage_resets params).notify_session_reset = true ↔ _).mp htrue
    rcases hcond.2.2 with ⟨seen, hseen, -⟩
    rw [h] at hseen
    cases hseen
  · intro h
    rw [← Bool.not_eq_true]
    intro htrue
    have hcond := (by simpa [decide_usage_resets] using hw :
      (decide_usage_resets params).notify_weekly_reset = true ↔ _).mp htrue
    rcases hcond.2.2 with ⟨seen, hseen, -⟩
    rw [h] at hseen
    cases hseen

/-- Witness for C2 at a concrete input: baseline period "A", current period
"B", nothing notified yet, so both metrics fire; and with no baseline the
session metric does not fire. -/
theorem usage_reset_decision_correct_witness :
    ((decide_usage_resets
        { current_session_resets_at := some "B"
          current_weekly_resets_at := some "B"
          last_seen_session_period_id := some "A"
          last_seen_weekly_period_id := some "A"
          last_notified_session_reset_period_id := none
          last_notified_weekly_reset_period_id := none }).notify_session_reset
      = true) ∧
    ((decide_usage_resets
        { current_session_resets_at := some "B"
          current_weekly_resets_at := some "B"
          last_seen_session_period_id := none
          last_seen_weekly_period_id := some "A"
          last_notified_session_reset_period_id := none
          last_notified_weekly_reset_period_id := none }).notify_session_reset
      = false) := by
  constructor
  · exact (usage_reset_decision_correct
      { current_session_resets_at := some "B"
        current_weekly_resets_at := some "B"
        last_seen_session_period_id := some "A"
        last_seen_weekly_period_id := some "A"
        last_notified_session_reset_period_id := none
        last_notified_weekly_reset_period_id := none }).1.mpr
      (by refine ⟨by decide, by decide, "A", rfl, by decide, by simp⟩)
  · exact (usage_reset_decision_correct
      { current_session_resets_at := some "B"
        current_weekly_resets_at := some "B"
        last_seen_session_period_id := none
        last_seen_weekly_period_id := some "A"
        last_notified_session_reset_period_id := none
        last_notified_weekly_reset_period_id := none }).2.2.1 rfl

/-! ## Snapshot data model (`src-tauri/src/types.rs`) -/

/-- `UsageStatus` from `types.rs`. -/
inductive UsageStatus
  | ok
  | unauthorized
  | rateLimited
  | error
  | missingKey
deriving DecidableEq

/-- `ClaudeModelUsage` from `types.rs`. -/
structure ClaudeModelUsage where
  name : String
  percent : ℚ
  resets_at : Option String
deriving DecidableEq

/-- `ClaudeUsageSnapshot` from `types.rs`. -/
inductive ClaudeUsageSnapshot
  | ok (organization_id : String) (session_percent : ℚ)
      (session_resets_at : Option String) (weekly_percent : ℚ)
      (weekly_resets_at : Option String) (models : List ClaudeModelUsage)
      (last_updated_at : String)
  | unauthorized (organization_id : Option String) (last_updated_at : String)
      (error_message : Option String)
  | rateLimited (organization_id : Option String) (last_updated_at : String)
      (error_message : Option String)
  | error (organization_id : Option String) (last_updated_at : String)
      (error_message : Option String)
  | missingKey (organization_id : Option String) (last_updated_at : String)
      (error_message : Option String)
deriving DecidableEq

/-- `ClaudeUsageSnapshot::status` from `types.rs`. -/
def ClaudeUsageSnapshot.status : ClaudeUsageSnapshot → UsageStatus
  | .ok .. => .ok
  | .unauthorized .. => .unauthorized
  | .rateLimited .. => .rateLimited
  | .error .. => .error
  | .missingKey .. => .missingKey

/-- `CodexUsageSnapshot` from `types.rs`. -/
inductive CodexUsageSnapshot
  | ok (session_percent : ℚ) (session_resets_at : Option String)
      (weekly_percent : ℚ) (weekly_resets_at : Option String)
      (last_updated_at : String)
  | unauthorized (last_updated_at : String) (error_message : Option String)
  | rateLimited (last_updated_at : String) (error_message : Option String)
  | error (last_updated_at : String) (error_message : Option String)
  | missingKey (last_updated_at : String) (error_message : Option String)
deriving DecidableEq

/-- `CodexUsageSnapshot::status` from `types.rs`. -/
def CodexUsageSnapshot.status : CodexUsageSnapshot → UsageStatus
  | .ok .. => .ok
  | .unauthorized .. => .unauthorized
  | .rateLimited .. => .rateLimited
  | .error .. => .error
  | .missingKey .. => .missingKey

/-- `UsageSnapshotBundle` from `types.rs`. -/
structure UsageSnapshotBundle where
  claude : Option ClaudeUsageSnapshot
  codex : Option CodexUsageSnapshot
deriving DecidableEq

/-! ## Polling scheduler policy (`src-tauri/src/refresh/policy.rs`) -/

/-- Rust `Option::is_some_and`. -/
def optionIsSomeAnd (o : Option α) (p : α → Bool) : Bool :=
  match o with
  | some a => p a
  | none => false

/-- The `matches!(status, MissingKey | Unauthorized)` test used by
`should_pause_polling`. -/
def is_auth_blocked (s : UsageStatus) : Bool :=
  match s with
  | .missingKey => true
  | .unauthorized => true
  | _ => false

/-- `should_pause_polling` from `refresh/policy.rs`. -/
def should_pause_polling (track_claude track_codex : Bool)
    (snapshot : UsageSnapshotBundle) : Bool :=
  let claude_paused := track_claude &&
    optionIsSomeAnd snapshot.claude (fun s => is_auth_blocked s.status)
  let codex_paused := track_codex &&
    optionIsSomeAnd snapshot.codex (fun s => is_auth_blocked s.status)
  if track_claude && track_codex then claude_paused && codex_paused
  else claude_paused || codex_paused

/-- `2^64`: the modulus of Rust's `u64` arithmetic. -/
def U64_SIZE : ℕ := 2 ^ 64

/-- Rust `as u64` applied to a nonnegative f64 value: truncate toward
zero (the floor, and `Int.toNat` for a negative argument mirrors the
saturation at 0) and saturate at `u64::MAX` (float-to-int casts saturate
since Rust 1.45). -/
def u64_of_f64 (q : ℚ) : ℕ :=
  min (⌊q⌋).toNat (U64_SIZE - 1)

/-- `compute_next_delay_ms_with_nanos` from `refresh/policy.rs`.  The f64
arithmetic is modelled over `ℚ`; this is exact only while `base_ms` stays
within f64's exact-integer range (`≤ 2^53` — the `base_ms as f64`
conversion and the products are then representable up to f64 rounding of
the jitter term), which the delay-bounds theorem assumes as a hypothesis.
The final `as u64` cast truncates and saturates.  The clock reading
`unix_timestamp_nanos` is nonnegative on any past-epoch clock, so `nanos`
is a natural number and Rust's `%` agrees with `Nat.mod`. -/
def compute_next_delay_ms_with_nanos (base_ms : ℕ) (j : ℚ) (nanos : ℕ) : ℕ :=
  let frac : ℚ := ((nanos % 1000 : ℕ) : ℚ) / 1000
  let delta : ℚ := (frac * 2 - 1) * ((base_ms : ℚ) * j)
  u64_of_f64 (max ((base_ms : ℚ) + delta) 1000)

/-- The `any_rate_limited` test inside `compute_next_delay_ms`. -/
def any_rate_limited (snapshot : UsageSnapshotBundle) : Bool :=
  optionIsSomeAnd snapshot.claude
      (fun s => decide (s.status = UsageStatus.rateLimited)) ||
    optionIsSomeAnd snapshot.codex
      (fun s => decide (s.status = UsageStatus.rateLimited))

/-- `compute_next_delay_ms` from `refresh/policy.rs`, with the clock
sample passed explicitly.  `refresh_interval_seconds` and the base are
`u64` values, so the `base_seconds * 1000` multiplication wraps modulo
`2^64` (release-profile wrapping semantics). -/
def compute_next_delay_ms (refresh_interval_seconds : ℕ)
    (snapshot : UsageSnapshotBundle) (nanos : ℕ) : ℕ :=
  let base_seconds := max refresh_interval_seconds 30
  let configured_base_ms := base_seconds * 1000 % U64_SIZE
  let p : ℕ × ℚ :=
    if any_rate_limited snapshot then (5 * 60 * 1000, 2 / 10)
    else (configured_base_ms, 1 / 10)
  compute_next_delay_ms_with_nanos p.1 p.2 nanos

/-- `compute_next_delay_for_latest` from `refresh/policy.rs`. -/
def compute_next_delay_for_latest (track_claude track_codex : Bool)
    (refresh_interval_seconds : ℕ) (snapshot : Option UsageSnapshotBundle)
    (nanos : ℕ) : Option ℕ :=
  match snapshot with
  | none => some 60000
  | some snapshot =>
    if should_pause_polling track_claude track_codex snapshot then none
    else some (compute_next_delay_ms refresh_interval_seconds snapshot nanos)

/-- The pause condition exactly as the claim words it: every enabled
provider's snapshot is present in the bundle and auth-blocked
(`MissingKey` or `Unauthorized`). -/
def allEnabledAuthBlocked (track_claude track_codex : Bool)
    (b : UsageSnapshotBundle) : Prop :=
  (track_claude = true →
    ∃ s, b.claude = some s ∧ is_auth_blocked s.status = true) ∧
  (track_codex = true →
    ∃ s, b.codex = some s ∧ is_auth_blocked s.status = true)

/-- C3 counterexample: with no provider enabled, the claimed condition
("every enabled provider's snapshot is present and auth-blocked") holds
vacuously, yet `should_pause_polling` returns `false`, so the claimed
equivalence fails at that input. -/
theorem should_pause_polling_claim_counterexample :
    ¬ (should_pause_polling false false ⟨none, none⟩ = true ↔
        allEnabledAuthBlocked false false ⟨none, none⟩) := by
  intro h
  have hblocked : allEnabledAuthBlocked false false ⟨none, none⟩ := by
    exact ⟨fun hc => Bool.noConfusion hc, fun hc => Bool.noConfusion hc⟩
  have := h.mpr hblocked
  simp [should_pause_polling, optionIsSomeAnd] at this

/-- C3 (amended): `should_pause_polling` returns `true` iff at least one
provider is enabled and every enabled provider's snapshot is present and
auth-blocked; and given a bundle, `compute_next_delay_for_latest` returns
`none` exactly in the paused case. -/
theorem should_pause_polling_iff (track_claude track_codex : Bool)
    (b : UsageSnapshotBundle) :
    (should_pause_polling track_claude track_codex b = true ↔
      (track_claude = true ∨ track_codex = true) ∧
        allEnabledAuthBlocked track_claude track_codex b) ∧
    (∀ (i nanos : ℕ),
      compute_next_delay_for_latest track_claude track_codex i (some b) nanos
          = none ↔
        should_pause_polling track_claude track_codex b = true) := by
  constructor
  · rcases b with ⟨oc, ox⟩
    cases track_claude <;> cases track_codex <;> cases oc <;> cases ox <;>
      simp [should_pause_polling, allEnabledAuthBlocked, optionIsSomeAnd]
  · intro i nanos
    cases h : should_pause_polling track_claude track_codex b <;>
      simp [compute_next_delay_for_latest, h]

/-- Witness for C3's amended theorem at concrete inputs: two enabled
providers with one `Ok` and one `MissingKey` do not pause, while
`Unauthorized` plus `MissingKey` does pause and yields no next delay. -/
theorem should_pause_polling_iff_witness :
    should_pause_polling true true
        ⟨some (.ok "org" 10 none 10 none [] "t"), some (.missingKey "t" none)⟩
        = false ∧
    should_pause_polling true true
        ⟨some (.unauthorized none "t" none), some (.missingKey "t" none)⟩
        = true ∧
    compute_next_delay_for_latest true true 60
        (some ⟨some (.unauthorized none "t" none), some (.missingKey "t" none)⟩)
        0 = none := by
  refine ⟨?_, ?_, ?_⟩
  · have h := (should_pause_polling_iff true true
      ⟨some (.ok "org" 10 none 10 none [] "t"), some (.missingKey "t" none)⟩).1
    rw [← Bool.not_eq_true]
    intro htrue
    rcases (h.mp htrue).2.1 rfl with ⟨s, hs, hblocked⟩
    cases hs
    cases hblocked
  · exact (should_pause_polling_iff true true
      ⟨some (.unauthorized none "t" none), some (.missingKey "t" none)⟩).1.mpr
      ⟨Or.inl rfl,
        by exact ⟨fun _ => ⟨.unauthorized none "t" none, rfl, rfl⟩,
          fun _ => ⟨.missingKey "t" none, rfl, rfl⟩⟩⟩
  · refine ((should_pause_polling_iff true true
      ⟨some (.unauthorized none "t" none), some (.missingKey "t" none)⟩).2
        60 0).mpr ?_
    exact (should_pause_polling_iff true true
      ⟨some (.unauthorized none "t" none), some (.missingKey "t" none)⟩).1.mpr
      ⟨Or.inl rfl,
        by exact ⟨fun _ => ⟨.unauthorized none "t" none, rfl, rfl⟩,
          fun _ => ⟨.missingKey "t" none, rfl, rfl⟩⟩⟩

lemma compute_next_delay_ms_with_nanos_bounds (base : ℕ) (j : ℚ) (nanos : ℕ)
    (L U : ℕ) (hj : 0 ≤ j) (hL : (L : ℚ) ≤ (base : ℚ) * (1 - j))
    (hU : (base : ℚ) * (1 + j) ≤ (U : ℚ))
    (h1000 : (1000 : ℚ) ≤ (base : ℚ) * (1 - j))
    (hU64 : U ≤ U64_SIZE - 1) :
    L ≤ compute_next_delay_ms_with_nanos base j nanos ∧
      compute_next_delay_ms_with_nanos base j nanos ≤ U := by
  have hr : (nanos % 1000 : ℕ) < 1000 := Nat.mod_lt _ (by norm_num)
  have hLU : L ≤ U := by
    have hbase : (0 : ℚ) ≤ (base : ℚ) := by positivity
    have : (L : ℚ) ≤ (U : ℚ) := by
      refine le_trans hL (le_trans ?_ hU)
      nlinarith
    exact_mod_cast this
  simp only [compute_next_delay_ms_with_nanos, u64_of_f64]
  set r : ℚ := ((nanos % 1000 : ℕ) : ℚ) with hrdef
  have hr0 : 0 ≤ r := by positivity
  have hr999 : r ≤ 999 := by
    rw [hrdef]
    exact_mod_cast Nat.lt_succ_iff.mp hr
  set delta : ℚ := (r / 1000 * 2 - 1) * ((base : ℚ) * j) with hdelta
  have hbj : 0 ≤ (base : ℚ) * j := by positivity
  have hdlow : -((base : ℚ) * j) ≤ delta := by
    rw [hdelta]
    nlinarith
  have hdhigh : delta ≤ (base : ℚ) * j := by
    rw [hdelta]
    nlinarith
  have hv_low : (base : ℚ) * (1 - j) ≤ max ((base : ℚ) + delta) 1000 :=
    le_max_iff.mpr (Or.inl (by nlinarith))
  have hv_high : max ((base : ℚ) + delta) 1000 ≤ (base : ℚ) * (1 + j) :=
    max_le (by nlinarith) (le_trans h1000 (by nlinarith))
  have hfloor_low : (L : ℤ) ≤ ⌊max ((base : ℚ) + delta) 1000⌋ := by
    refine Int.le_floor.mpr ?_
    push_cast
    exact le_trans hL hv_low
  have hfloor_nonneg : (0 : ℤ) ≤ ⌊max ((base : ℚ) + delta) 1000⌋ :=
    le_trans (Int.ofNat_nonneg L) hfloor_low
  have htoNat_le : (⌊max ((base : ℚ) + delta) 1000⌋).toNat ≤ U := by
    refine Int.toNat_le.mpr ?_
    have hle : max ((base : ℚ) + delta) 1000 ≤ (U : ℚ) := le_trans hv_high hU
    calc ⌊max ((base : ℚ) + delta) 1000⌋ ≤ ⌊(U : ℚ)⌋ := Int.floor_le_floor hle
      _ = (U : ℤ) := Int.floor_natCast U
  constructor
  · exact le_min ((Int.le_toNat hfloor_nonneg).mpr hfloor_low)
      (le_trans hLU hU64)
  · exact le_trans (min_le_left _ _) htoNat_le

lemma u64_of_f64_natCast (n : ℕ) (hn : n ≤ U64_SIZE - 1) :
    u64_of_f64 (n : ℚ) = n := by
  rw [u64_of_f64, Int.floor_natCast, Int.toNat_natCast]
  exact min_eq_left hn

lemma with_nanos_zero_base (j : ℚ) (nanos : ℕ) :
    compute_next_delay_ms_with_nanos 0 j nanos = 1000 := by
  simp only [compute_next_delay_ms_with_nanos]
  have harg : (((0 : ℕ) : ℚ) +
      (((nanos % 1000 : ℕ) : ℚ) / 1000 * 2 - 1) * (((0 : ℕ) : ℚ) * j)) = 0 := by
    push_cast
    ring
  rw [harg, max_eq_right (by norm_num : (0 : ℚ) ≤ 1000),
    show ((1000 : ℚ)) = ((1000 : ℕ) : ℚ) by norm_num]
  exact u64_of_f64_natCast 1000 (by norm_num [U64_SIZE])

/-- C8 counterexample: at the representable interval `i = 2^61` seconds
the u64 product `max(i,30) * 1000` equals `125 * 2^64` and wraps to
exactly 0, so with a healthy bundle the program computes
`max(0 + jitter, 1000) as u64 = 1000` ms — far below the claimed lower
bound of 90 percent of `max(i,30) * 1000`. -/
theorem compute_next_delay_ms_wrap_counterexample :
    any_rate_limited { claude := none, codex := none } = false ∧
    compute_next_delay_ms (2 ^ 61) { claude := none, codex := none } 0
      = 1000 ∧
    ¬ (900 * max (2 ^ 61) 30 ≤
        compute_next_delay_ms (2 ^ 61) { claude := none, codex := none } 0) := by
  have hrl : any_rate_limited { claude := none, codex := none } = false := rfl
  have hmax : max (2 ^ 61 : ℕ) 30 = 2 ^ 61 := max_eq_left (by norm_num)
  have hwrap : ((2 : ℕ) ^ 61 * 1000) % U64_SIZE = 0 := by
    norm_num [U64_SIZE]
  have heval : compute_next_delay_ms (2 ^ 61)
      { claude := none, codex := none } 0 = 1000 := by
    have h1 : compute_next_delay_ms (2 ^ 61)
        { claude := none, codex := none } 0 =
        compute_next_delay_ms_with_nanos
          ((max (2 ^ 61) 30 * 1000) % U64_SIZE) (1 / 10) 0 := by
      simp [compute_next_delay_ms, hrl]
    rw [h1, hmax, hwrap, with_nanos_zero_base]
  refine ⟨hrl, heval, ?_⟩
  rw [heval, hmax]
  norm_num

/-- C8 (amended): for every configured refresh interval `i` whose base
`max(i, 30) * 1000` ms stays within `2^53` (so the u64 multiplication
does not wrap and the value is within f64's exact-integer range — every
realistic setting), the computed next delay lies within 20 percent of the
5-minute base (300000 ms) when a provider is rate limited, within 10
percent of `max(i, 30) * 1000` ms otherwise, and is always at least
1000 ms. -/
theorem compute_next_delay_ms_bounds (i nanos : ℕ) (b : UsageSnapshotBundle)
    (hi : max i 30 * 1000 ≤ 2 ^ 53) :
    (any_rate_limited b = true →
      240000 ≤ compute_next_delay_ms i b nanos ∧
        compute_next_delay_ms i b nanos ≤ 360000) ∧
    (any_rate_limited b = false →
      900 * max i 30 ≤ compute_next_delay_ms i b nanos ∧
        compute_next_delay_ms i b nanos ≤ 1100 * max i 30) ∧
    1000 ≤ compute_next_delay_ms i b nanos := by
  cases h : any_rate_limited b with
  | true =>
    have hb := compute_next_delay_ms_with_nanos_bounds (5 * 60 * 1000) (2 / 10)
      nanos 240000 360000 (by norm_num) (by norm_num) (by norm_num)
      (by norm_num) (by norm_num [U64_SIZE])
    have heq : compute_next_delay_ms i b nanos =
        compute_next_delay_ms_with_nanos (5 * 60 * 1000) (2 / 10) nanos := by
      simp [compute_next_delay_ms, h]
    refine ⟨fun _ => ?_, fun hfalse => absurd hfalse (by decide), ?_⟩
    · rw [heq]
      exact hb
    · rw [heq]
      exact le_trans (by norm_num) hb.1
  | false =>
    have hm : (30 : ℚ) ≤ ((max i 30 : ℕ) : ℚ) := by
      exact_mod_cast le_max_right i 30
    have hU64 : 1100 * max i 30 ≤ U64_SIZE - 1 := by
      calc 1100 * max i 30 ≤ 2000 * max i 30 :=
            Nat.mul_le_mul_right (max i 30) (by norm_num)
        _ = 2 * (max i 30 * 1000) := by ring
        _ ≤ 2 * 2 ^ 53 := Nat.mul_le_mul_left 2 hi
        _ ≤ U64_SIZE - 1 := by norm_num [U64_SIZE]
    have hb := compute_next_delay_ms_with_nanos_bounds (max i 30 * 1000)
      (1 / 10) nanos (900 * max i 30) (1100 * max i 30)
      (by norm_num)
      (by push_cast; ring_nf; linarith)
      (by push_cast; ring_nf; linarith)
      (by push_cast; linarith [le_max_right (i : ℚ) 30])
      hU64
    have hnowrap : (max i 30 * 1000) % U64_SIZE = max i 30 * 1000 :=
      Nat.mod_eq_of_lt (lt_of_le_of_lt hi (by norm_num [U64_SIZE]))
    have heq : compute_next_delay_ms i b nanos =
        compute_next_delay_ms_with_nanos (max i 30 * 1000) (1 / 10) nanos := by
      simp [compute_next_delay_ms, h, hnowrap]
    refine ⟨fun htrue => absurd htrue (by decide), fun _ => ?_, ?_⟩
    · rw [heq]
      exact hb
    · rw [heq]
      refine le_trans ?_ hb.1
      have : 30 ≤ max i 30 := le_max_right i 30
      omega

/-- Witness for C8's amended theorem at concrete inputs: a rate-limited
bundle and a healthy bundle, interval 60s (base 60000 ms, well within
`2^53`), clock sample 0. -/
theorem compute_next_delay_ms_bounds_witness :
    (240000 ≤ compute_next_delay_ms 60 ⟨some (.rateLimited none "t" none), none⟩ 0 ∧
      compute_next_delay_ms 60 ⟨some (.rateLimited none "t" none), none⟩ 0 ≤ 360000) ∧
    (900 * max 60 30 ≤ compute_next_delay_ms 60 ⟨none, none⟩ 0 ∧
      compute_next_delay_ms 60 ⟨none, none⟩ 0 ≤ 1100 * max 60 30) ∧
    1000 ≤ compute_next_delay_ms 60 ⟨none, none⟩ 0 := by
  refine ⟨?_, ?_, ?_⟩
  · exact (compute_next_delay_ms_bounds 60 0
      ⟨some (.rateLimited none "t" none), none⟩ (by norm_num)).1 rfl
  · exact (compute_next_delay_ms_bounds 60 0 ⟨none, none⟩
      (by norm_num)).2.1 rfl
  · exact (compute_next_delay_ms_bounds 60 0 ⟨none, none⟩
      (by norm_num)).2.2

/-! ## JSON model and utilization parsing (`src-tauri/src/claude.rs`) -/

/-- Model of an `f64` as observed by `clamp_percent`: finite values are
exact rationals; `str::parse::<f64>` can also produce `NaN` or an
infinity, so those are explicit constructors. -/
inductive FloatVal
  | nan
  | posInf
  | negInf
  | fin (q : ℚ)
deriving DecidableEq

/-- `clamp_percent` from `claude.rs` (the copy in `codex.rs` is
identical): `NaN` maps to 0, every other value is `value.clamp(0.0,
100.0)` (an infinity clamps to the corresponding bound). -/
def clamp_percent : FloatVal → ℚ
  | .nan => 0
  | .posInf => 100
  | .negInf => 0
  | .fin q => min (max q 0) 100

/-- `serde_json::Number` with the `i64`/`u64` variants collapsed into
`int`; the stored f64 variant is always finite (`serde_json` refuses
non-finite numbers). -/
inductive JNum
  | int (n : ℤ)
  | float (q : ℚ)
deriving DecidableEq

/-- `serde_json::Number::as_f64`.  With serde_json's default features it
returns `Some` for every variant (the `i64`/`u64` to `f64` conversion is
modelled as exact). -/
def JNum.as_f64 : JNum → Option ℚ
  | .int n => some (n : ℚ)
  | .float q => some q

/-- `serde_json::Value`. -/
inductive Json
  | null
  | bool (b : Bool)
  | num (n : JNum)
  | str (s : String)
  | arr (items : List Json)
  | obj (fields : List (String × Json))

/-- `serde_json::Value::get(key)` for object values. -/
def Json.get (j : Json) (key : String) : Option Json :=
  match j with
  | .obj fields => (fields.find? (fun kv => kv.fst == key)).map (fun kv => kv.snd)
  | _ => none

/-- `serde_json::Value::as_i64`: only integer numbers qualify. -/
def Json.as_i64 : Json → Option ℤ
  | .num (.int n) => some n
  | _ => none

/-- `serde_json::Value::as_str`. -/
def Json.as_str : Json → Option String
  | .str s => some s
  | _ => none

/-- `parse_utilization_percent` from `claude.rs`.  The `f64` parse of a
trimmed string is supplied as an explicit function `strParse` (`none` for
`Err`, `some` for `Ok`, which may be `NaN`/infinite). -/
def parse_utilization_percent (strParse : String → Option FloatVal)
    (value : Json) : ℚ :=
  match value with
  | .num n => ((n.as_f64.map (fun q => clamp_percent (.fin q))).getD 0)
  | .str s => (((strParse (rustTrim s)).map clamp_percent).getD 0)
  | _ => 0

lemma clamp_percent_nonneg (v : FloatVal) : 0 ≤ clamp_percent v := by
  cases v with
  | fin q =>
    simp only [clamp_percent, le_min_iff]
    exact ⟨le_max_right q 0, by norm_num⟩
  | nan => simp [clamp_percent]
  | posInf => simp [clamp_percent]
  | negInf => simp [clamp_percent]

lemma clamp_percent_le (v : FloatVal) : clamp_percent v ≤ 100 := by
  cases v with
  | fin q => exact min_le_right _ _
  | nan => simp [clamp_percent]
  | posInf => simp [clamp_percent]
  | negInf => simp [clamp_percent]

lemma clamp_percent_fin_cases (q : ℚ) :
    (q < 0 → clamp_percent (.fin q) = 0) ∧
    (0 ≤ q → q ≤ 100 → clamp_percent (.fin q) = q) ∧
    (100 < q → clamp_percent (.fin q) = 100) := by
  refine ⟨fun h => ?_, fun h0 h100 => ?_, fun h => ?_⟩
  · simp [clamp_percent, max_eq_right (le_of_lt h), le_of_lt h]
  · simp [clamp_percent, max_eq_left h0, min_eq_left h100]
  · simp [clamp_percent, min_eq_right, le_max_iff, le_of_lt h]

/-- C5: utilization parsing always lands in `[0, 100]`; a numeric input is
clamped into `[0, 100]`; a string input is trimmed, parsed and clamped,
with a failed parse or a `NaN` yielding 0; and a non-numeric, non-string
input yields exactly 0. -/
theorem parse_utilization_percent_correct
    (strParse : String → Option FloatVal) (value : Json) :
    (0 ≤ parse_utilization_percent strParse value ∧
      parse_utilization_percent strParse value ≤ 100) ∧
    (∀ n q, value = .num n → n.as_f64 = some q →
      (q < 0 → parse_utilization_percent strParse value = 0) ∧
      (0 ≤ q → q ≤ 100 → parse_utilization_percent strParse value = q) ∧
      (100 < q → parse_utilization_percent strParse value = 100)) ∧
    (∀ s q, value = .str s → strParse (rustTrim s) = some (.fin q) →
      (q < 0 → parse_utilization_percent strParse value = 0) ∧
      (0 ≤ q → q ≤ 100 → parse_utilization_percent strParse value = q) ∧
      (100 < q → parse_utilization_percent strParse value = 100)) ∧
    (∀ s, value = .str s →
      (strParse (rustTrim s) = none →
        parse_utilization_percent strParse value = 0) ∧
      (strParse (rustTrim s) = some .nan →
        parse_utilization_percent strParse value = 0)) ∧
    ((value = .null ∨ (∃ b, value = .bool b) ∨ (∃ l, value = .arr l) ∨
        (∃ f, value = .obj f)) →
      parse_utilization_percent strParse value = 0) := by
  refine ⟨?_, ?_, ?_, ?_, ?_⟩
  · cases value with
    | num n =>
      cases n with
      | int m =>
        exact ⟨clamp_percent_nonneg (.fin (m : ℚ)), clamp_percent_le (.fin (m : ℚ))⟩
      | float q =>
        exact ⟨clamp_percent_nonneg (.fin q), clamp_percent_le (.fin q)⟩
    | str s =>
      cases h : strParse (rustTrim s) with
      | none =>
        have h0 : parse_utilization_percent strParse (.str s) = 0 := by
          rw [show parse_utilization_percent strParse (.str s) =
            ((strParse (rustTrim s)).map clamp_percent).getD 0 from rfl, h]
          rfl
        rw [h0]
        norm_num
      | some fv =>
        have h0 : parse_utilization_percent strParse (.str s) =
            clamp_percent fv := by
          rw [show parse_utilization_percent strParse (.str s) =
            ((strParse (rustTrim s)).map clamp_percent).getD 0 from rfl, h]
          rfl
        rw [h0]
        exact ⟨clamp_percent_nonneg fv, clamp_percent_le fv⟩
    | null => exact ⟨le_refl 0, (by norm_num : (0 : ℚ) ≤ 100)⟩
    | bool b => exact ⟨le_refl 0, (by norm_num : (0 : ℚ) ≤ 100)⟩
    | arr l => exact ⟨le_refl 0, (by norm_num : (0 : ℚ) ≤ 100)⟩
    | obj f => exact ⟨le_refl 0, (by norm_num : (0 : ℚ) ≤ 100)⟩
  · rintro n q rfl hq
    have h0 : parse_utilization_percent strParse (.num n) =
        clamp_percent (.fin q) := by
      rw [show parse_utilization_percent strParse (.num n) =
        (n.as_f64.map (fun x => clamp_percent (.fin x))).getD 0 from rfl, hq]
      rfl
    rw [h0]
    exact clamp_percent_fin_cases q
  · rintro s q rfl hq
    have h0 : parse_utilization_percent strParse (.str s) =
        clamp_percent (.fin q) := by
      rw [show parse_utilization_percent strParse (.str s) =
        ((strParse (rustTrim s)).map clamp_percent).getD 0 from rfl, hq]
      rfl
    rw [h0]
    exact clamp_percent_fin_cases q
  · rintro s rfl
    constructor
    · intro h
      rw [show parse_utilization_percent strParse (.str s) =
        ((strParse (rustTrim s)).map clamp_percent).getD 0 from rfl, h]
      rfl
    · intro h
      rw [show parse_utilization_percent strParse (.str s) =
        ((strParse (rustTrim s)).map clamp_percent).getD 0 from rfl, h]
      rfl
  · rintro (rfl | ⟨b, rfl⟩ | ⟨l, rfl⟩ | ⟨f, rfl⟩) <;> rfl

/-- Witness for C5 at concrete inputs: an out-of-range number clamps to
100, an unparseable string yields 0, and `null` yields 0. -/
theorem parse_utilization_percent_correct_witness :
    parse_utilization_percent (fun _ => none) (.num (.float 250)) = 100 ∧
    parse_utilization_percent (fun _ => none) (.str "abc") = 0 ∧
    parse_utilization_percent (fun _ => none) .null = 0 := by
  refine ⟨?_, ?_, ?_⟩
  · exact ((parse_utilization_percent_correct (fun _ => none)
      (.num (.float 250))).2.1 (.float 250) 250 rfl rfl).2.2 (by norm_num)
  · exact ((parse_utilization_percent_correct (fun _ => none)
      (.str "abc")).2.2.2.1 "abc" rfl).1 rfl
  · exact (parse_utilization_percent_correct (fun _ => none)
      .null).2.2.2.2 (Or.inl rfl)

/-! ## Secret store (`src-tauri/src/state/secret_manager.rs`) -/

/-- Outcome of `keyring::Entry::get_password`, by the error kinds
`get_current` distinguishes: a stored password, `NoEntry`,
`NoStorageAccess`, `PlatformFailure`, or any other `keyring::Error`
(e.g. `BadEncoding`, `Ambiguous`). -/
inductive KeyringReadResult
  | ok (pwd : String)
  | noEntry
  | noStorageAccess
  | platformFailure
  | otherErr
deriving DecidableEq

/-- The keychain environment one `get_current` call can observe: whether
`Entry::new` succeeds, and what `get_password` would return if called. -/
structure KeyringEnv where
  entryOk : Bool
  read : KeyringReadResult

/-- `SecretManager::set_in_memory` from `secret_manager.rs`, acting on the
in-memory tier: trims, storing `none` for empty results. -/
def set_in_memory (value : Option String) : Option String :=
  value.bind (fun v =>
    let trimmed := rustTrim v
    if trimmed = "" then none else some trimmed)

/-- Result of one `get_current` call: the returned value (`Except Unit`
mirrors `Result<Option<String>, ()>`), the in-memory tier afterwards, and
whether the call reached `get_password` on the OS keychain. -/
structure GetCurrentOutcome where
  result : Except Unit (Option String)
  memory : Option String
  consultedKeyring : Bool

/-- `SecretManager::get_current` from `secret_manager.rs`, embedded as a
state transition on the in-memory tier with the keychain outcome supplied
by `env`. -/
def get_current (memory : Option String) (remember : Bool)
    (env : KeyringEnv) : GetCurrentOutcome :=
  match memory with
  | some value => { result := .ok (some value), memory := memory
                    consultedKeyring := false }
  | none =>
    if !remember then
      { result := .ok none, memory := memory, consultedKeyring := false }
    else if !env.entryOk then
      { result := .error (), memory := memory, consultedKeyring := false }
    else
      match env.read with
      | .ok pwd =>
        let trimmed := rustTrim pwd
        if trimmed = "" then
          { result := .ok none, memory := memory, consultedKeyring := true }
        else
          { result := .ok (some trimmed)
            memory := set_in_memory (some trimmed)
            consultedKeyring := true }
      | .noEntry =>
        { result := .ok none, memory := memory, consultedKeyring := true }
      | .noStorageAccess =>
        { result := .error (), memory := memory, consultedKeyring := true }
      | .platformFailure =>
        { result := .error (), memory := memory, consultedKeyring := true }
      | .otherErr =>
        { result := .ok none, memory := memory, consultedKeyring := true }

/-- C6: `get_current` returns the in-memory value when one is set; with no
in-memory value and `remember = false` it returns absent without touching
the keychain; otherwise it reads the keychain, mapping a stored value to
its trimmed form, treating no-entry and empty/whitespace-only values as
absent (success), and storage-access or platform failures as the distinct
error (not absence). -/
theorem get_current_correct (memory : Option String) (remember : Bool)
    (env : KeyringEnv) :
    (∀ v, memory = some v →
      (get_current memory remember env).result = .ok (some v) ∧
        (get_current memory remember env).consultedKeyring = false) ∧
    (memory = none → remember = false →
      (get_current memory remember env).result = .ok none ∧
        (get_current memory remember env).consultedKeyring = false) ∧
    (memory = none → remember = true → env.entryOk = true →
      (env.read = .noEntry →
        (get_current memory remember env).result = .ok none) ∧
      (∀ pwd, env.read = .ok pwd → rustTrim pwd = "" →
        (get_current memory remember env).result = .ok none) ∧
      (∀ pwd, env.read = .ok pwd → rustTrim pwd ≠ "" →
        (get_current memory remember env).result = .ok (some (rustTrim pwd))) ∧
      ((env.read = .noStorageAccess ∨ env.read = .platformFailure) →
        (get_current memory remember env).result = .error ())) := by
  refine ⟨?_, ?_, ?_⟩
  · rintro v rfl
    exact ⟨rfl, rfl⟩
  · rintro rfl rfl
    exact ⟨rfl, rfl⟩
  · rintro rfl rfl hentry
    refine ⟨?_, ?_, ?_, ?_⟩
    · intro hread
      simp [get_current, hentry, hread]
    · intro pwd hread htrim
      simp [get_current, hentry, hread, htrim]
    · intro pwd hread htrim
      simp [get_current, hentry, hread, htrim]
    · rintro (hread | hread) <;> simp [get_current, hentry, hread]

/-- Witness for C6 at concrete inputs: an in-memory hit, a `remember =
false` miss, and a storage-access failure surfacing as the error. -/
theorem get_current_correct_witness :
    ((get_current (some "k") false ⟨true, .noStorageAccess⟩).result
        = .ok (some "k")) ∧
    ((get_current none false ⟨true, .ok "k"⟩).result = .ok none) ∧
    ((get_current none true ⟨true, .noStorageAccess⟩).result = .error ()) := by
  refine ⟨?_, ?_, ?_⟩
  · exact ((get_current_correct (some "k") false ⟨true, .noStorageAccess⟩).1
      "k" rfl).1
  · exact ((get_current_correct none false ⟨true, .ok "k"⟩).2.1 rfl rfl).1
  · exact (get_current_correct none true ⟨true, .noStorageAccess⟩).2.2
      rfl rfl rfl |>.2.2.2 (Or.inl rfl)

lemma rustTrim_idem (s : String) : rustTrim (rustTrim s) = rustTrim s := by
  show (⟨List.rdropWhile Char.isWhitespace (List.dropWhile Char.isWhitespace
      (List.rdropWhile Char.isWhitespace
        (List.dropWhile Char.isWhitespace s.data)))⟩ : String) = _
  have hdw : List.dropWhile Char.isWhitespace
      (List.rdropWhile Char.isWhitespace
        (List.dropWhile Char.isWhitespace s.data)) =
      List.rdropWhile Char.isWhitespace
        (List.dropWhile Char.isWhitespace s.data) := by
    rw [List.dropWhile_eq_self_iff]
    intro hl
    have hpre := List.rdropWhile_prefix Char.isWhitespace
      (List.dropWhile Char.isWhitespace s.data)
    have hlen : 0 < (List.dropWhile Char.isWhitespace s.data).length :=
      lt_of_lt_of_le hl hpre.length_le
    have hget := List.dropWhile_get_zero_not Char.isWhitespace s.data hlen
    simp only [List.get_eq_getElem] at hget ⊢
    rw [hpre.getElem hl]
    exact hget
  rw [hdw, List.rdropWhile_idempotent]
  rfl

/-- C10: a successful keychain read of a non-blank value inside
`get_current (remember := true)` stores the trimmed value into the
in-memory tier, and every subsequent `get_current` call — with any
`remember` flag and any keychain state — returns that value from memory
without consulting the keychain and leaves the memory tier unchanged. -/
theorem get_current_caches_keyring_read (pwd : String) (env : KeyringEnv)
    (hentry : env.entryOk = true) (hread : env.read = .ok pwd)
    (htrim : rustTrim pwd ≠ "") :
    ((get_current none true env).memory = some (rustTrim pwd) ∧
      (get_current none true env).result = .ok (some (rustTrim pwd))) ∧
    (∀ (remember : Bool) (env2 : KeyringEnv),
      (get_current (get_current none true env).memory remember env2).result
          = .ok (some (rustTrim pwd)) ∧
      (get_current (get_current none true env).memory remember env2).memory
          = (get_current none true env).memory ∧
      (get_current (get_current none true env).memory remember
          env2).consultedKeyring = false) := by
  have hmem : (get_current none true env).memory = some (rustTrim pwd) := by
    simp [get_current, hentry, hread, htrim, set_in_memory, rustTrim_idem]
  have hres : (get_current none true env).result = .ok (some (rustTrim pwd)) := by
    simp [get_current, hentry, hread, htrim]
  refine ⟨⟨hmem, hres⟩, ?_⟩
  intro remember env2
  rw [hmem]
  exact ⟨rfl, rfl, rfl⟩

/-- Witness for C10 at a concrete input: reading " secret " from the
keychain caches "secret" in memory, and a follow-up call with `remember =
false` and a dead keychain still returns it without a keychain read. -/
theorem get_current_caches_keyring_read_witness :
    ((get_current none true ⟨true, .ok " secret "⟩).memory = some "secret") ∧
    ((get_current (get_current none true ⟨true, .ok " secret "⟩).memory false
        ⟨false, .noStorageAccess⟩).result = .ok (some "secret")) ∧
    ((get_current (get_current none true ⟨true, .ok " secret "⟩).memory false
        ⟨false, .noStorageAccess⟩).consultedKeyring = false) := by
  have h := get_current_caches_keyring_read " secret " ⟨true, .ok " secret "⟩
    rfl rfl (by decide)
  have htr : rustTrim " secret " = "secret" := by decide
  refine ⟨?_, ?_, ?_⟩
  · rw [h.1.1, htr]
  · rw [(h.2 false ⟨false, .noStorageAccess⟩).1, htr]
  · exact (h.2 false ⟨false, .noStorageAccess⟩).2.2

/-! ## CLI RPC client (`src-tauri/src/codex.rs`)

The child's standard output is modelled as a list of line events, each
stamped with the elapsed milliseconds since the correlated read began.
The concurrent standard-error drain in `read_response` only discards
(redacted) text and shares the same deadline, so it does not affect the
correlated read's outcome and is not modelled.  The secret-redaction
filter is supplied as an explicit function. -/

/-- `CodexCliError` from `codex.rs`. -/
inductive CodexCliError
  | binaryMissing
  | timedOut
  | malformed
  | failed (msg : String)
deriving DecidableEq

/-- `CodexWindow` from `codex.rs`. -/
structure CodexWindow where
  used_percent : ℤ
  reset_at : ℤ
deriving DecidableEq

/-- One line-read event on the child's standard output: an I/O error, end
of stream, or a line carrying its JSON parse result (`none` when the text
is not valid JSON). -/
inductive LineEvent
  | ioError
  | eof
  | line (parsed : Option Json)

/-- The fixed 12-second deadline of `read_response`. -/
def READ_DEADLINE_MS : ℕ := 12000

/-- `CodexRpcClient::read_response` from `codex.rs`: reads stdout lines
until the one whose `id` matches; an empty remainder means the stream
stays silent and the deadline elapses. -/
def read_response (redact : String → String) (id : ℤ) :
    List (ℕ × LineEvent) → Except CodexCliError Json
  | [] => .error .timedOut
  | (t, e) :: rest =>
    if READ_DEADLINE_MS ≤ t then .error .timedOut
    else
      match e with
      | .ioError => .error .malformed
      | .eof => .error .malformed
      | .line none => .error .malformed
      | .line (some j) =>
        if (j.get "id").bind Json.as_i64 ≠ some id then
          read_response redact id rest
        else
          match ((j.get "error").bind (fun e => e.get "message")).bind
              Json.as_str with
          | some m => .error (.failed (redact m))
          | none => .ok j

/-- C7: during a correlated read with outstanding id `n`, a parsed JSON
line whose `id` field does not equal `n` (before the deadline) is
discarded and reading continues; a matching line carrying an
`error.message` yields `Failed` with the redacted message; reaching the
12-second deadline (or a stream that stays silent) yields `TimedOut`. -/
lemma read_response_cons (redact : String → String) (id : ℤ) (t : ℕ)
    (e : LineEvent) (rest : List (ℕ × LineEvent)) :
    read_response redact id ((t, e) :: rest) =
      if READ_DEADLINE_MS ≤ t then .error .timedOut
      else
        match e with
        | .ioError => .error .malformed
        | .eof => .error .malformed
        | .line none => .error .malformed
        | .line (some j) =>
          if (j.get "id").bind Json.as_i64 ≠ some id then
            read_response redact id rest
          else
            match ((j.get "error").bind (fun e => e.get "message")).bind
                Json.as_str with
            | some m => .error (.failed (redact m))
            | none => .ok j := rfl

theorem read_response_correct (redact : String → String) (id : ℤ)
    (t : ℕ) (rest : List (ℕ × LineEvent)) :
    (∀ j, t < READ_DEADLINE_MS →
      (j.get "id").bind Json.as_i64 ≠ some id →
      read_response redact id ((t, .line (some j)) :: rest) =
        read_response redact id rest) ∧
    (∀ j m, t < READ_DEADLINE_MS →
      (j.get "id").bind Json.as_i64 = some id →
      ((j.get "error").bind (fun e => e.get "message")).bind Json.as_str
          = some m →
      read_response redact id ((t, .line (some j)) :: rest) =
        .error (.failed (redact m))) ∧
    (∀ e, READ_DEADLINE_MS ≤ t →
      read_response redact id ((t, e) :: rest) = .error .timedOut) ∧
    read_response redact id [] = .error .timedOut := by
  refine ⟨?_, ?_, ?_, rfl⟩
  · intro j ht hid
    rw [read_response_cons, if_neg (not_le.mpr ht)]
    show (if (j.get "id").bind Json.as_i64 ≠ some id then
        read_response redact id rest
      else _) = read_response redact id rest
    rw [if_pos hid]
  · intro j m ht hid hmsg
    rw [read_response_cons, if_neg (not_le.mpr ht)]
    show (if (j.get "id").bind Json.as_i64 ≠ some id then
        read_response redact id rest
      else
        match ((j.get "error").bind (fun e => e.get "message")).bind
            Json.as_str with
        | some m => .error (.failed (redact m))
        | none => .ok j) = _
    rw [if_neg (not_not_intro hid), hmsg]
  · intro e ht
    rw [read_response_cons, if_pos ht]

/-- Witness for C7 at a concrete input: a line with id 1 is skipped, the
following line with id 2 and an `error.message` produces `Failed` with
the (identity-redacted) message; a line arriving at the deadline
produces `TimedOut`. -/
theorem read_response_correct_witness :
    read_response (fun s => s) 2
        [(5, .line (some (.obj [("id", .num (.int 1))]))),
          (9, .line (some (.obj [("id", .num (.int 2)),
            ("error", .obj [("message", .str "boom")])])))] =
      .error (.failed "boom") ∧
    read_response (fun s => s) 2
        [(12000, .line (some (.obj [("id", .num (.int 2))])))] =
      .error .timedOut := by
  constructor
  · rw [(read_response_correct (fun s => s) 2 5
        [(9, .line (some (.obj [("id", .num (.int 2)),
          ("error", .obj [("message", .str "boom")])])))]).1
      (.obj [("id", .num (.int 1))]) (by decide) (by decide)]
    exact (read_response_correct (fun s => s) 2 9 []).2.1
      (.obj [("id", .num (.int 2)),
        ("error", .obj [("message", .str "boom")])])
      "boom" (by decide) (by decide) (by decide)
  · exact (read_response_correct (fun s => s) 2 12000 []).2.2.1
      (.line (some (.obj [("id", .num (.int 2))]))) (le_refl 12000)

/-- `RpcRateLimitWindow` from `codex.rs` (deserialized shape of one
rate-limit window: `usedPercent` f64, optional `resetsAt` i64). -/
structure RpcRateLimitWindow where
  used_percent : ℚ
  resets_at : Option ℤ

/-- `RpcRateLimitSnapshot` from `codex.rs`. -/
structure RpcRateLimitSnapshot where
  primary : Option RpcRateLimitWindow
  secondary : Option RpcRateLimitWindow

/-- Deserializing an `f64` field: any JSON number qualifies. -/
def parse_f64 : Json → Option ℚ
  | .num n => n.as_f64
  | _ => none

/-- Rust `f64::round`: round half away from zero. -/
def rustRound (q : ℚ) : ℤ :=
  if 0 ≤ q then ⌊q + 1 / 2⌋ else -⌊-q + 1 / 2⌋

/-- serde deserialization of one `RpcRateLimitWindow` from a JSON value:
`usedPercent` is required, `resetsAt` defaults to `None` when absent or
null and must be an integer otherwise. -/
def parse_rpc_window (j : Json) : Option RpcRateLimitWindow :=
  match j with
  | .obj _ =>
    match (j.get "usedPercent").bind parse_f64 with
    | none => none
    | some up =>
      match j.get "resetsAt" with
      | none => some { used_percent := up, resets_at := none }
      | some .null => some { used_percent := up, resets_at := none }
      | some jv =>
        jv.as_i64.map (fun r => { used_percent := up, resets_at := some r })
  | _ => none

/-- serde deserialization of an `Option<RpcRateLimitWindow>` field: the
outer `none` is a deserialization error, the inner `none` an absent or
null field. -/
def parse_opt_window (o : Option Json) : Option (Option RpcRateLimitWindow) :=
  match o with
  | none => some none
  | some .null => some none
  | some j => (parse_rpc_window j).map some

/-- serde deserialization of `RpcRateLimitsResponse` from the `result`
value: a required `rateLimits` object with optional `primary` and
`secondary` windows. -/
def parse_rate_limits_result (result : Json) : Option RpcRateLimitSnapshot :=
  match result.get "rateLimits" with
  | none => none
  | some rl =>
    match rl with
    | .obj _ =>
      (parse_opt_window (rl.get "primary")).bind (fun p =>
        (parse_opt_window (rl.get "secondary")).map (fun s =>
          { primary := p, secondary := s }))
    | _ => none

/-- `RpcRateLimitWindow::to_codex_window` from `codex.rs`: absent
`resets_at` is an error, `used_percent` is rounded to an integer. -/
def to_codex_window (w : RpcRateLimitWindow) : Option CodexWindow :=
  w.resets_at.map (fun r =>
    { used_percent := rustRound w.used_percent, reset_at := r })

/-- The external interactions one `fetch_rate_limits` call can observe:
whether the spawn succeeds, whether taking each standard stream succeeds,
whether each stdin write succeeds (the fixed request payloads always
serialize), and the stdout line events for the two correlated reads.  The
`initialized` notification write between them is best-effort — its
outcome is ignored by the source, so it is not modelled. -/
structure RpcEnv where
  spawnOk : Bool
  stdinOk : Bool
  stdoutOk : Bool
  stderrOk : Bool
  write1Ok : Bool
  events1 : List (ℕ × LineEvent)
  write2Ok : Bool
  events2 : List (ℕ × LineEvent)

/-- `CodexRpcClient::fetch_rate_limits` from `codex.rs`.  The second
component records whether `child.kill()` was invoked: in the source the
only `kill` call sits immediately before the final `Ok`, so every early
`return`/`?` path leaves it `false` (`BinaryMissing` aside, no child
exists only in the spawn-failure case). -/
def fetch_rate_limits (redact : String → String) (env : RpcEnv) :
    Except CodexCliError (CodexWindow × CodexWindow) × Bool :=
  if !env.spawnOk then (.error .binaryMissing, false)
  else if !env.stdinOk then (.error .malformed, false)
  else if !env.stdoutOk then (.error .malformed, false)
  else if !env.stderrOk then (.error .malformed, false)
  else if !env.write1Ok then (.error (.failed "Codex CLI write failed."), false)
  else
    match read_response redact 1 env.events1 with
    | .error e => (.error e, false)
    | .ok _ =>
      if !env.write2Ok then
        (.error (.failed "Codex CLI write failed."), false)
      else
        match read_response redact 2 env.events2 with
        | .error e => (.error e, false)
        | .ok message =>
          match message.get "result" with
          | none => (.error .malformed, false)
          | some result =>
            match parse_rate_limits_result result with
            | none => (.error .malformed, false)
            | some parsed =>
              match parsed.primary.bind to_codex_window with
              | none => (.error .malformed, false)
              | some primary =>
                match parsed.secondary.bind to_codex_window with
                | none => (.error .malformed, false)
                | some secondary => (.ok (primary, secondary), true)

/-- An environment in which the spawn and all pipe/write steps succeed
but the helper never writes a line: the first correlated read times
out. -/
def rpcTimeoutEnv : RpcEnv :=
  { spawnOk := true, stdinOk := true, stdoutOk := true, stderrOk := true
    write1Ok := true, events1 := [], write2Ok := true, events2 := [] }

/-- An environment in which the whole protocol succeeds: the initialize
response carries id 1, and the rate-limits response carries id 2 and a
well-formed result. -/
def rpcHappyEnv : RpcEnv :=
  { spawnOk := true, stdinOk := true, stdoutOk := true, stderrOk := true
    write1Ok := true
    events1 := [(1, .line (some (.obj [("id", .num (.int 1))])))]
    write2Ok := true
    events2 := [(2, .line (some (.obj [("id", .num (.int 2)),
      ("result", .obj [("rateLimits", .obj
        [("primary", .obj [("usedPercent", .num (.int 33)),
          ("resetsAt", .num (.int 100))]),
          ("secondary", .obj [("usedPercent", .num (.int 40)),
            ("resetsAt", .num (.int 200))])])])])))] }

/-- C4 (violated by the code): on the timeout exit path the child is not
killed — `fetch_rate_limits` returns `TimedOut` with the kill flag still
`false` — while the success path does kill it.  The helper sitting silent
past the 12-second deadline is a concrete failing run. -/
lemma rustRound_intCast (n : ℤ) : rustRound (n : ℚ) = n := by
  rcases le_or_lt 0 (n : ℚ) with h | h
  · rw [rustRound, if_pos h, Int.floor_eq_iff]
    constructor
    · linarith
    · linarith
  · rw [rustRound, if_neg (not_le.mpr h)]
    have hfloor : ⌊-(n : ℚ) + 1 / 2⌋ = -n := by
      rw [Int.floor_eq_iff]
      constructor
      · push_cast
        linarith
      · push_cast
        linarith
    rw [hfloor, neg_neg]

theorem fetch_rate_limits_leaks_child_on_timeout :
    fetch_rate_limits (fun s => s) rpcTimeoutEnv =
      (.error .timedOut, false) ∧
    fetch_rate_limits (fun s => s) rpcHappyEnv =
      (.ok (⟨33, 100⟩, ⟨40, 200⟩), true) := by
  constructor
  · rfl
  · have hres : fetch_rate_limits (fun s => s) rpcHappyEnv =
        (.ok ({ used_percent := rustRound ((33 : ℤ) : ℚ), reset_at := 100 },
          { used_percent := rustRound ((40 : ℤ) : ℚ), reset_at := 200 }),
          true) := rfl
    rw [hres, rustRound_intCast, rustRound_intCast]

/-! ## Codex fetch orchestration (`src-tauri/src/commands.rs`)

The refresh loop wired in `app.rs` uses `commands.rs`'s
`fetch_codex_snapshot`, whose `codex_usage_source` defaults to `Auto`;
the auto/fallback chain lives at `commands.rs:902-942`.  (The
`refresh/fetch.rs` copy of the function only implements the `Oauth` and
`Cli` modes.)  HTTP fetch outcomes are supplied by the environment. -/

/-- `CodexUsageSource` from `types.rs`. -/
inductive CodexUsageSource
  | auto
  | oauth
  | web
  | cli
deriving DecidableEq

/-- `CodexOAuthCredentials` from `codex.rs`. -/
structure CodexOAuthCredentials where
  access_token : String
  account_id : Option String
deriving DecidableEq

/-- `FetchSnapshot<CodexUsageSnapshot>` from `commands.rs`. -/
structure CodexFetchResult where
  snapshot : CodexUsageSnapshot
  keyring_error : Bool
deriving DecidableEq

/-- The external outcomes one `fetch_codex_snapshot` call can observe:
the configured source mode, the credential-file read, the cookie lookup
(`codex_cookie.get_current`), and the snapshot each fetch client would
return if called. -/
structure CodexFetchEnv where
  source : CodexUsageSource
  oauthCreds : Option CodexOAuthCredentials
  oauthSnap : CodexUsageSnapshot
  cookie : Except Unit (Option String)
  cookieSnap : CodexUsageSnapshot
  cliSnap : CodexUsageSnapshot

/-- The tail of the auto chain after the OAuth attempt has not produced
an `Ok` snapshot (`commands.rs:917-941`): try the remembered cookie, then
fall back to the CLI; a keyring failure still allows the CLI fallback but
sets the keyring-error flag. -/
def fetch_codex_snapshot_auto_rest (env : CodexFetchEnv) : CodexFetchResult :=
  match env.cookie with
  | .ok (some _) =>
    if env.cookieSnap.status = UsageStatus.ok then
      { snapshot := env.cookieSnap, keyring_error := false }
    else { snapshot := env.cliSnap, keyring_error := false }
  | .ok none => { snapshot := env.cliSnap, keyring_error := false }
  | .error () => { snapshot := env.cliSnap, keyring_error := true }

/-- `fetch_codex_snapshot` from `commands.rs` (lines 843-944), with the
capture timestamp passed as `now`. -/
def fetch_codex_snapshot (env : CodexFetchEnv) (now : String) :
    CodexFetchResult :=
  match env.source with
  | .oauth =>
    match env.oauthCreds with
    | some _ => { snapshot := env.oauthSnap, keyring_error := false }
    | none =>
      { snapshot := .unauthorized now
          (some "Codex credentials not found. Run `codex` to log in.")
        keyring_error := false }
  | .web =>
    match env.cookie with
    | .ok (some _) => { snapshot := env.cookieSnap, keyring_error := false }
    | .ok none =>
      { snapshot := .missingKey now (some "Codex cookie is not configured.")
        keyring_error := false }
    | .error () =>
      { snapshot := .missingKey now
          (some "OS keychain/secret service is unavailable.")
        keyring_error := true }
  | .cli => { snapshot := env.cliSnap, keyring_error := false }
  | .auto =>
    match env.oauthCreds with
    | some _ =>
      if env.oauthSnap.status = UsageStatus.ok then
        { snapshot := env.oauthSnap, keyring_error := false }
      else fetch_codex_snapshot_auto_rest env
    | none => fetch_codex_snapshot_auto_rest env

/-- An auto-mode environment in which every source fails: OAuth
credentials exist but the OAuth fetch is `Unauthorized`, a cookie exists
but the cookie fetch errors, and the CLI fetch errors. -/
def autoFailEnv : CodexFetchEnv :=
  { source := .auto
    oauthCreds := some { access_token := "tok", account_id := none }
    oauthSnap := .unauthorized "t" (some "oauth failed")
    cookie := .ok (some "cookie")
    cookieSnap := .error "t" (some "cookie failed")
    cliSnap := .error "t" (some "cli failed") }

/-- C9 counterexample: in `autoFailEnv` every source is tried and fails,
the first non-Ok snapshot encountered is the OAuth one, yet the code
returns the CLI's (last) snapshot — so the claim's "returns the first
non-Ok snapshot" is false at this input. -/
theorem fetch_codex_snapshot_auto_claim_counterexample :
    autoFailEnv.oauthSnap.status ≠ UsageStatus.ok ∧
    autoFailEnv.cookieSnap.status ≠ UsageStatus.ok ∧
    autoFailEnv.cliSnap.status ≠ UsageStatus.ok ∧
    (fetch_codex_snapshot autoFailEnv "t").snapshot ≠ autoFailEnv.oauthSnap ∧
    (fetch_codex_snapshot autoFailEnv "t").snapshot = autoFailEnv.cliSnap := by
  refine ⟨by decide, by decide, by decide, by decide, by decide⟩

/-- C9 (amended): in auto mode one fetch tries OAuth credential file,
then remembered cookie, then CLI, in that order, stopping at the first
source that yields an `Ok` snapshot; when every source fails it returns
the snapshot of the last source tried (the CLI), setting the
keyring-error flag when the cookie lookup failed with the keyring
unavailable. -/
theorem fetch_codex_snapshot_auto_correct (env : CodexFetchEnv)
    (now : String) (hsrc : env.source = .auto) :
    ((∃ c, env.oauthCreds = some c) → env.oauthSnap.status = UsageStatus.ok →
      fetch_codex_snapshot env now =
        { snapshot := env.oauthSnap, keyring_error := false }) ∧
    ((env.oauthCreds = none ∨ env.oauthSnap.status ≠ UsageStatus.ok) →
      (∀ ck, env.cookie = .ok (some ck) →
        env.cookieSnap.status = UsageStatus.ok →
        fetch_codex_snapshot env now =
          { snapshot := env.cookieSnap, keyring_error := false }) ∧
      ((env.cookie = .ok none ∨ (∃ ck, env.cookie = .ok (some ck) ∧
          env.cookieSnap.status ≠ UsageStatus.ok)) →
        fetch_codex_snapshot env now =
          { snapshot := env.cliSnap, keyring_error := false }) ∧
      (env.cookie = .error () →
        fetch_codex_snapshot env now =
          { snapshot := env.cliSnap, keyring_error := true })) := by
  have hrest : ∀ henv : CodexFetchEnv,
      (∀ ck, henv.cookie = .ok (some ck) →
        henv.cookieSnap.status = UsageStatus.ok →
        fetch_codex_snapshot_auto_rest henv =
          { snapshot := henv.cookieSnap, keyring_error := false }) ∧
      ((henv.cookie = .ok none ∨ (∃ ck, henv.cookie = .ok (some ck) ∧
          henv.cookieSnap.status ≠ UsageStatus.ok)) →
        fetch_codex_snapshot_auto_rest henv =
          { snapshot := henv.cliSnap, keyring_error := false }) ∧
      (henv.cookie = .error () →
        fetch_codex_snapshot_auto_rest henv =
          { snapshot := henv.cliSnap, keyring_error := true }) := by
    intro henv
    refine ⟨?_, ?_, ?_⟩
    · intro ck hck hok
      simp [fetch_codex_snapshot_auto_rest, hck, hok]
    · rintro (hck | ⟨ck, hck, hnok⟩)
      · simp [fetch_codex_snapshot_auto_rest, hck]
      · simp [fetch_codex_snapshot_auto_rest, hck, hnok]
    · intro hck
      simp [fetch_codex_snapshot_auto_rest, hck]
  have hmain : ∀ goal : CodexFetchResult,
      fetch_codex_snapshot_auto_rest env = goal →
      (env.oauthCreds = none ∨ env.oauthSnap.status ≠ UsageStatus.ok) →
      fetch_codex_snapshot env now = goal := by
    intro goal hgoal hcase
    rcases hcreds : env.oauthCreds with - | c
    · simp [fetch_codex_snapshot, hsrc, hcreds, hgoal]
    · rcases hcase with hnone | hnok
      · rw [hcreds] at hnone
        cases hnone
      · simp [fetch_codex_snapshot, hsrc, hcreds, hnok, hgoal]
  refine ⟨?_, ?_⟩
  · rintro ⟨c, hc⟩ hok
    simp [fetch_codex_snapshot, hsrc, hc, hok]
  · intro hcase
    refine ⟨?_, ?_, ?_⟩
    · intro ck hck hok
      exact hmain _ ((hrest env).1 ck hck hok) hcase
    · intro h
      exact hmain _ ((hrest env).2.1 h) hcase
    · intro h
      exact hmain _ ((hrest env).2.2 h) hcase

/-- Witness for C9's amended theorem: in `autoFailEnv` (every source
failing, cookie present) the result is the CLI snapshot with no keyring
error; and with an unreadable keyring the CLI snapshot is returned with
the keyring-error flag set. -/
theorem fetch_codex_snapshot_auto_correct_witness :
    fetch_codex_snapshot autoFailEnv "t" =
      { snapshot := autoFailEnv.cliSnap, keyring_error := false } ∧
    fetch_codex_snapshot
        { autoFailEnv with cookie := .error () } "t" =
      { snapshot := autoFailEnv.cliSnap, keyring_error := true } := by
  constructor
  · exact ((fetch_codex_snapshot_auto_correct autoFailEnv "t" rfl).2
      (Or.inr (by decide))).2.1
      (Or.inr ⟨"cookie", rfl, by decide⟩)
  · exact ((fetch_codex_snapshot_auto_correct
      { autoFailEnv with cookie := .error () } "t" rfl).2
      (Or.inr (by decide))).2.2 rfl

end Claudometer
